import Mathlib

/-
Verification of the summarization pipeline in generate_summaries.py
(boston-speed-read).  The Python source is shallowly embedded: pure string
manipulation is re-implemented over List Char so every definition reduces in
the kernel; external library calls (the OpenAI client, re.findall, hashlib.md5,
json parsing, the file system) are passed in explicitly as function-valued
parameters, mirroring exactly how the source consumes their results.
-/

/-- Python membership test `pat in s` on strings: true when pat occurs as a
contiguous substring of s.  Implemented structurally so it evaluates in the
kernel.  Helper: does the candidate list start with the pattern? -/
def startsWithChars : List Char → List Char → Bool
  | [], _ => true
  | _ :: _, [] => false
  | p :: ps, c :: cs => p == c && startsWithChars ps cs

/-- Substring occurrence test on character lists (any position). -/
def hasSubChars (pat : List Char) : List Char → Bool
  | [] => startsWithChars pat []
  | c :: cs => startsWithChars pat (c :: cs) || hasSubChars pat cs

/-- Python `pat in s` (substring containment). -/
def containsSub (s pat : String) : Bool :=
  hasSubChars pat.data s.data

/-- Python whitespace class for str.strip / regex white space, restricted to the
ASCII white-space characters Python's `\s` matches on ASCII text. -/
def isPySpace (c : Char) : Bool :=
  c = ' ' || c = '\t' || c = '\n' || c = '\r' || c = '\x0b' || c = '\x0c'

/-- Python `s.strip()`: drop white space from both ends. -/
def pyStrip (s : String) : String :=
  ⟨((s.data.dropWhile isPySpace).reverse.dropWhile isPySpace).reverse⟩

/-- Python slicing `s[:n]` (first n code points). -/
def pySlice (s : String) (n : Nat) : String :=
  ⟨s.data.take n⟩

/-- Python `s.replace(pat, rep)`: non-overlapping left-to-right replacement of
every occurrence.  All call sites in the source use a non-empty pattern.
Structural recursion on a fuel argument (the callers pass the list length,
which always suffices: every step consumes at least one character), so the
function evaluates inside the kernel. -/
def replaceFuel (pat rep : List Char) : Nat → List Char → List Char
  | _, [] => []
  | 0, l => l
  | fuel + 1, c :: cs =>
    if startsWithChars pat (c :: cs) ∧ pat ≠ [] then
      rep ++ replaceFuel pat rep fuel (cs.drop (pat.length - 1))
    else
      c :: replaceFuel pat rep fuel cs

/-- Python `s.replace(pat, rep)` on strings. -/
def pyReplace (s pat rep : String) : String :=
  ⟨replaceFuel pat.data rep.data s.data.length s.data⟩

/-- Python `s.split(sep)` with a non-empty separator, on character lists;
`cur` accumulates the current (reversed) fragment.  Fuel as in replaceFuel. -/
def splitOnFuel (sep : List Char) : Nat → List Char → List Char → List (List Char)
  | _, [], cur => [cur.reverse]
  | 0, _, cur => [cur.reverse]
  | fuel + 1, c :: cs, cur =>
    if startsWithChars sep (c :: cs) ∧ sep ≠ [] then
      cur.reverse :: splitOnFuel sep fuel (cs.drop (sep.length - 1)) []
    else
      splitOnFuel sep fuel cs (c :: cur)

/-- Python `s.split(sep)` on strings. -/
def pySplitOn (s sep : String) : List String :=
  (splitOnFuel sep.data s.data.length s.data []).map (fun cs => ⟨cs⟩)

/-- Python `'\n'.join(lines)`. -/
def joinNl : List String → String
  | [] => ""
  | [s] => s
  | s :: rest => s ++ "\n" ++ joinNl rest

/-- Regex `<[^>]+>`: after a '<', skip at least one non-'>' character, then
consume through the closing '>'.  Helper consuming up to the next '>'. -/
def skipToGt : List Char → Option (List Char)
  | [] => none
  | c :: rest => if c = '>' then some rest else skipToGt rest

/-- Try to match the tag body `[^>]+>` at the head of the list; on success
return the remainder after the closing '>'. -/
def findTag : List Char → Option (List Char)
  | [] => none
  | c :: rest => if c = '>' then none else skipToGt rest

/-- Source line 91, `re.sub(r'<[^>]+>', '', description)`: delete every
leftmost non-overlapping match of `<[^>]+>`.  Fuel as in replaceFuel. -/
def stripTagsFuel : Nat → List Char → List Char
  | _, [] => []
  | 0, l => l
  | fuel + 1, c :: rest =>
    if c = '<' then
      match findTag rest with
      | some rest2 => stripTagsFuel fuel rest2
      | none => c :: stripTagsFuel fuel rest
    else
      c :: stripTagsFuel fuel rest

/-- Markup strip on strings. -/
def stripTags (s : String) : String :=
  ⟨stripTagsFuel s.data.length s.data⟩

/-- Source line 92, `re.sub(r'\s+', ' ', ...)`: collapse every maximal run of
white space to a single space.  Fuel as in replaceFuel. -/
def collapseWsFuel : Nat → List Char → List Char
  | _, [] => []
  | 0, l => l
  | fuel + 1, c :: rest =>
    if isPySpace c then ' ' :: collapseWsFuel fuel (rest.dropWhile isPySpace)
    else c :: collapseWsFuel fuel rest

/-- White-space collapse on strings. -/
def collapseWs (s : String) : String :=
  ⟨collapseWsFuel s.data.length s.data⟩

/-- Article record built by the Feed Normalizer (source lines 94-99). -/
structure Article where
  title : String
  link : String
  description : String
  pubDate : String
deriving DecidableEq

/-- Raw feed entry as exposed by feedparser: every field optional (`entry.get`
with a default).  The RSS transport itself is out of scope; the entry sequence
is the input. -/
structure RawEntry where
  title : Option String
  link : Option String
  description : Option String
  published : Option String
  pubDate : Option String
deriving DecidableEq

/-- Feed Normalizer for one entry (source lines 90-99): strip markup,
collapse white space, strip ends, cap the description at 1000, default a
missing title to "No title", a missing link to the empty string, and a missing
published date to `entry.get('pubDate', '')`. -/
def normalizeEntry (e : RawEntry) : Article :=
  let description := e.description.getD ""
  let clean_desc := pyStrip (collapseWs (stripTags description))
  ⟨e.title.getD "No title",
   e.link.getD "",
   pySlice clean_desc 1000,
   e.published.getD (e.pubDate.getD "")⟩

/-- Source lines 88-99: `for entry in feed.entries[:12]` followed by the
per-entry normalization.  The HTTP fetch and feedparser call are the external
transport; this function is the normalization applied to their output. -/
def fetch_rss_feed (entries : List RawEntry) : List Article :=
  (entries.take 12).map normalizeEntry

theorem pySlice_length_le (s : String) (n : Nat) : (pySlice s n).length ≤ n :=
  List.length_take_le n s.data

/-- C9 amended: no entry is rejected (one Article per entry among the first
12); an entry lacking a title receives the non-empty placeholder "No title";
an entry lacking a link receives the empty string (not a non-empty
placeholder); the description is capped at 1000 characters. -/
theorem fetch_normalizer_contract (entries : List RawEntry) (e : RawEntry) :
    (fetch_rss_feed entries).length = min 12 entries.length ∧
    (normalizeEntry e).description.length ≤ 1000 ∧
    (e.title = none → (normalizeEntry e).title = "No title" ∧ "No title" ≠ "") ∧
    (e.link = none → (normalizeEntry e).link = "") := by
  refine ⟨by simp [fetch_rss_feed], pySlice_length_le _ _, ?_, ?_⟩
  · intro h
    refine ⟨?_, by decide⟩
    simp [normalizeEntry, h]
  · intro h
    simp [normalizeEntry, h]

/-- Witness for the amended C9 theorem at a concrete entry with no title and
no link. -/
theorem fetch_normalizer_contract_witness :
    (fetch_rss_feed [⟨none, none, none, none, none⟩]).length = min 12 1 ∧
    (normalizeEntry ⟨none, none, none, none, none⟩).description.length ≤ 1000 ∧
    ((⟨none, none, none, none, none⟩ : RawEntry).title = none →
      (normalizeEntry ⟨none, none, none, none, none⟩).title = "No title" ∧ "No title" ≠ "") ∧
    ((⟨none, none, none, none, none⟩ : RawEntry).link = none →
      (normalizeEntry ⟨none, none, none, none, none⟩).link = "") :=
  fetch_normalizer_contract [⟨none, none, none, none, none⟩] ⟨none, none, none, none, none⟩

/-- C9 counterexample: an entry lacking its link gets the EMPTY string as the
substituted value, so the claim that every missing title/link is replaced by a
non-empty placeholder is false at this input. -/
theorem normalize_missing_link_cex :
    (normalizeEntry ⟨none, none, none, none, none⟩).link = "" ∧
    (normalizeEntry ⟨none, none, none, none, none⟩).link.length = 0 := by
  exact ⟨rfl, rfl⟩

/-- Canned factual statements of the fallback (source lines 298-305). -/
def factual_fallbacks : List String :=
  ["The measure takes effect January 1 pending approval",
   "Three board members abstained from the final vote",
   "Implementation requires state regulatory approval first",
   "The proposal passed by a 7-6 margin Tuesday",
   "Federal funding covers 40% of projected costs",
   "Similar measures passed in Cambridge and Somerville"]

/-- Results of the external extraction library calls consumed by the fallback
(source lines 276-297), passed in explicitly:
`numbersOf` is `re.findall(r'\b\d+(?:,\d+\x7b3\x7d)*(?:\.\d+)?(?:\s*(?:million|billion|thousand|hundred|%|percent|years?|months?|days?|stores?|games?))?\b', desc)`;
`namesOf` is `re.findall(r'\b[A-Z][a-z]+ [A-Z][a-z]+\b', desc)`;
`locationsOf` is the case-insensitive findall of the neighborhood alternation;
`titleHash` is `int(hashlib.md5(title.encode()).hexdigest()[:2], 16)`.
All four are pure, deterministic library functions of their string argument. -/
structure ExtractOracle where
  numbersOf : String → List String
  namesOf : String → List String
  locationsOf : String → List String
  titleHash : String → Nat

/-- Third-bullet construction (source lines 284-306): priority order is a
second number, a second proper name, a first location, a first number, then a
canned statement selected by the title hash modulo 6. -/
def buildThird (numbers names locations : List String) (hashVal : Nat) : String :=
  if 2 ≤ numbers.length then
    "The figure includes " ++ numbers.getD 1 "" ++ " according to reports"
  else if 2 ≤ names.length then
    names.getD 1 "" ++ " also participated in the announcement"
  else if locations ≠ [] then
    "The " ++ locations.getD 0 "" ++ " location is primarily affected"
  else if numbers ≠ [] then
    "Officials confirmed " ++ numbers.getD 0 "" ++ " in the initial report"
  else
    factual_fallbacks.getD (hashVal % 6) ""

/-- Fallback Synthesizer (source lines 267-312): title cleaned of a
"Breaking: " marker, stripped and capped at 75; first sentence-like segment of
the description capped at 80; extracted factual third bullet. -/
def generate_factual_fallback (O : ExtractOracle) (article : Article) : List String :=
  let title := article.title
  let desc := article.description
  let third := buildThird (O.numbersOf desc) (O.namesOf desc) (O.locationsOf desc)
      (O.titleHash title)
  let clean_title := pySlice (pyStrip (pyReplace title "Breaking: " "")) 75
  let first_sentence :=
    if containsSub desc ". " then pySlice ((pySplitOn desc ". ").getD 0 "") 80
    else pySlice desc 80
  [clean_title, first_sentence, third]

theorem string_append_length (a b : String) : (a ++ b).length = a.length + b.length := by
  cases a with
  | mk da =>
    cases b with
    | mk db => exact List.length_append da db

theorem fallback_getD_pos : ∀ k, k < 6 → 0 < (factual_fallbacks.getD k "").length := by
  decide

theorem buildThird_length_pos (numbers names locations : List String) (hashVal : Nat) :
    0 < (buildThird numbers names locations hashVal).length := by
  unfold buildThird
  split
  · rw [string_append_length, string_append_length]
    have : 0 < ("The figure includes " : String).length := by decide
    omega
  · split
    · rw [string_append_length]
      have : 0 < (" also participated in the announcement" : String).length := by decide
      omega
    · split
      · rw [string_append_length, string_append_length]
        have : 0 < ("The " : String).length := by decide
        omega
      · split
        · rw [string_append_length, string_append_length]
          have : 0 < ("Officials confirmed " : String).length := by decide
          omega
        · exact fallback_getD_pos _ (Nat.mod_lt _ (by decide))

/-- C6 amended: the Fallback Synthesizer is a total, deterministic function of
the article and the extraction-library results; it always returns exactly 3
strings and the THIRD bullet is always non-empty — but the first and second
bullets can be empty (when the title and description are empty), so the
"exactly 3 non-empty strings" part of the original claim does not hold. -/
theorem fallback_three_bullets (O : ExtractOracle) (article : Article) :
    (generate_factual_fallback O article).length = 3 ∧
    (generate_factual_fallback O article).getD 2 "" ≠ "" := by
  constructor
  · rfl
  · show buildThird _ _ _ _ ≠ ""
    intro h
    have hp := buildThird_length_pos (O.numbersOf article.description)
      (O.namesOf article.description) (O.locationsOf article.description)
      (O.titleHash article.title)
    rw [h] at hp
    exact absurd hp (by decide)

/-- Concrete record of the extraction-library results on the empty string: all
three `re.findall` patterns require at least one character so they yield no
match on "", and `int(hashlib.md5(''.encode()).hexdigest()[:2], 16)` is
0xd4 = 212 (md5 of the empty string is d41d8cd98f00b204e9800998ecf8427e). -/
def emptyStringExtract : ExtractOracle :=
  ⟨fun _ => [], fun _ => [], fun _ => [], fun _ => 212⟩

/-- Article whose title and description are both empty. -/
def emptyArticle : Article := ⟨"", "", "", ""⟩

/-- C6 counterexample: on an article with empty title and description the
fallback returns TWO EMPTY bullets (212 % 6 = 2 selects the third canned
statement), refuting the claim that it always returns 3 non-empty strings. -/
theorem fallback_empty_bullet_cex :
    generate_factual_fallback emptyStringExtract emptyArticle =
      ["", "", "Implementation requires state regulatory approval first"] ∧
    (generate_factual_fallback emptyStringExtract emptyArticle).getD 0 "x" = "" := by
  exact ⟨rfl, rfl⟩

/-- Distinguishable failure modes of the external generation call (auth
failure, rate limit, timeout, generic); source line 264 catches them all
identically with a bare `except: pass`. -/
inductive CallErr
  | timeout
  | rateLimit
  | authFailure
  | generic
deriving DecidableEq

/-- The generation capability: `attempts n prompt` is the outcome the external
service would return for the n-th call made with the given prompt.  The source
consults only `attempts 0` because it makes a single call per article. -/
structure GenClient where
  attempts : Nat → String → Except CallErr String

/-- Prompt built by generate_summary (source lines 237-248). -/
def summaryPrompt (article : Article) : String :=
  "Create 3 bullet points for this Boston news:\n\nTitle: " ++ article.title ++
    "\nContent: " ++ pySlice article.description 600 ++
    "\n\nRequirements:\n1. First bullet: Main news and why it matters (15-20 words)\n" ++
    "2. Second bullet: Key facts, numbers, or quotes (15-20 words)\n" ++
    "3. Third bullet: Create curiosity - tease something surprising without revealing it (15-20 words)\n\n" ++
    "Use phrases like \"reveals why\", \"unexpected reason\", \"surprising twist\" in bullet 3.\n" ++
    "Return ONLY a JSON array of 3 strings."

/-- Summary Generator (source lines 231-265).  `parseList` is `json.loads`
restricted to the shapes the source accepts: it yields `some points` exactly
when the text parses as a JSON list of strings (`isinstance(points, list)`),
and `none` when parsing raises or the value is not a list.  The returned Nat
counts external calls actually made.  Faithfully to the source, the function
body makes AT MOST ONE call: there is no retry loop, and when the call fails,
or parsing fails, or the list length is not 3, control falls off the end of
the function and Python returns None. -/
def generate_summary (parseList : String → Option (List String))
    (client : Option GenClient) (article : Article) : Option (List String) × Nat :=
  match client with
  | none => (none, 0)
  | some c =>
    match c.attempts 0 (summaryPrompt article) with
    | Except.error _ => (none, 1)
    | Except.ok raw =>
      let content := pyReplace (pyReplace (pyStrip raw) "```json" "") "```" ""
      match parseList content with
      | none => (none, 1)
      | some points => (if points.length = 3 then some points else none, 1)

/-- C4 counterexample: with a client whose every attempt fails, the Summary
Generator makes exactly ONE external call — not the claimed bound of R=3
attempts with exponential backoff — before returning no result. -/
theorem generate_summary_single_attempt_cex :
    (generate_summary (fun _ => none) (some ⟨fun _ _ => Except.error CallErr.timeout⟩)
        ⟨"t", "l", "d", "p"⟩).2 = 1 ∧
    ¬ (generate_summary (fun _ => none) (some ⟨fun _ _ => Except.error CallErr.timeout⟩)
        ⟨"t", "l", "d", "p"⟩).2 = 3 := by
  exact ⟨rfl, by decide⟩

/-- C4 amended: on repeated failure of the external call the Summary Generator
makes exactly one attempt (there is no retry loop and no backoff) and then
returns control to the caller with no result rather than raising. -/
theorem generate_summary_no_retry (parseList : String → Option (List String))
    (c : GenClient) (article : Article)
    (hfail : ∀ n prompt, ∃ e, c.attempts n prompt = Except.error e) :
    generate_summary parseList (some c) article = (none, 1) := by
  obtain ⟨e, he⟩ := hfail 0 (summaryPrompt article)
  simp [generate_summary, he]

/-- Witness for the amended C4 theorem at a concrete always-failing client. -/
theorem generate_summary_no_retry_witness :
    generate_summary (fun _ => none) (some ⟨fun _ _ => Except.error CallErr.timeout⟩)
      ⟨"t", "l", "d", "p"⟩ = (none, 1) :=
  generate_summary_no_retry (fun _ => none) ⟨fun _ _ => Except.error CallErr.timeout⟩
    ⟨"t", "l", "d", "p"⟩ (fun _ _ => ⟨CallErr.timeout, rfl⟩)

/-- Record stored in the current batch and the history (source lines 384-389):
the summary field holds exactly what generate_summary returned, which is None
when no AI summary was produced. -/
structure ProcessedArticle where
  title : String
  link : String
  pubDate : String
  summary : Option (List String)
deriving DecidableEq

/-- The one uncaught exception the batch loop can raise: source line 381
evaluates `any('shocking' in s or 'everything' in s for s in summary)`, and
iterating over summary raises TypeError when summary is None. -/
inductive RunCrash
  | typeError
deriving DecidableEq

/-- Source line 381: `if client and not any('shocking' in s or 'everything' in
s for s in summary)`.  When client is falsy the `and` short-circuits; when
client is truthy the generator expression iterates summary, raising TypeError
if summary is None. -/
def checkAiUsed (client : Option GenClient) (summary : Option (List String)) :
    Except RunCrash Bool :=
  match client with
  | none => Except.ok false
  | some _ =>
    match summary with
    | none => Except.error RunCrash.typeError
    | some ss =>
      Except.ok (!(ss.any (fun s => containsSub s "shocking" || containsSub s "everything")))

/-- One iteration of the batch loop (source lines 375-393): generate the
summary, run the ai-count check (which can raise), then append the record. -/
def processStep (parseList : String → Option (List String)) (client : Option GenClient)
    (acc : List ProcessedArticle × Nat) (article : Article) :
    Except RunCrash (List ProcessedArticle × Nat) := do
  let summary := (generate_summary parseList client article).1
  let aiUsed ← checkAiUsed client summary
  Except.ok (acc.1 ++ [⟨article.title, article.link, article.pubDate, summary⟩],
    acc.2 + if aiUsed then 1 else 0)

/-- The batch loop of main (source lines 372-393): an uncaught exception in
one iteration aborts the whole loop (there is no per-item try/except). -/
def process_articles (parseList : String → Option (List String))
    (client : Option GenClient) (articles : List Article) :
    Except RunCrash (List ProcessedArticle × Nat) :=
  articles.foldlM (processStep parseList client) ([], 0)

/-- Statistics object of the output file: either the success counters of
source lines 401-406 (the float success_rate string is omitted) or the
`stats: {error: ...}` record of lines 368 and 426. -/
inductive StatsVal
  | counts (total ai fallback : Nat)
  | err (msg : String)
deriving DecidableEq

/-- Output file content (lastUpdated timestamp omitted). -/
structure RunOutput where
  articles : List ProcessedArticle
  stats : StatsVal
deriving DecidableEq

/-- Body of main after the feed fetch (source lines 363-407): empty feed
yields the error-stats record, otherwise the batch loop runs and its counters
populate the stats (fallback_summaries = total - ai_count).  The history
update and file writes are modelled separately. -/
def run_main (parseList : String → Option (List String)) (client : Option GenClient)
    (articles : List Article) : Except RunCrash RunOutput :=
  if articles.isEmpty then
    Except.ok ⟨[], StatsVal.err "No articles"⟩
  else do
    let (processed, ai_count) ← process_articles parseList client articles
    Except.ok ⟨processed, StatsVal.counts processed.length ai_count (processed.length - ai_count)⟩

/-- Feed of 3 distinct articles used as the concrete end-to-end input. -/
def feed3 : List Article :=
  [⟨"a1", "l1", "", "p1"⟩, ⟨"a2", "l2", "", "p2"⟩, ⟨"a3", "l3", "", "p3"⟩]

/-- C1 (code bug): with no credential (client = None) the run over 3 entries
does produce 3 records and stats fallback=3, generated=0 — but every record
carries summary = None, NOT the 3-bullet output of the Fallback Synthesizer:
generate_summary falls off the end without calling generate_factual_fallback,
contradicting its own docstring "Generate AI summary or fallback". -/
theorem run_no_client_summaries_none :
    run_main (fun _ => none) none feed3 =
      Except.ok ⟨[⟨"a1", "l1", "p1", none⟩, ⟨"a2", "l2", "p2", none⟩,
        ⟨"a3", "l3", "p3", none⟩], StatsVal.counts 3 0 3⟩ := by
  rfl

/-- C2 (code bug): with a client present whose generation call fails, the
first article's summary is None and the ai-count check at source line 381
iterates None, raising TypeError: the batch loop ABORTS and yields no records
for the remaining articles, contradicting per-item error containment. -/
theorem run_client_failure_aborts :
    run_main (fun _ => none) (some ⟨fun _ _ => Except.error CallErr.timeout⟩) feed3 =
      Except.error RunCrash.typeError := by
  rfl

/-- Top-level handler (source lines 417-428): on an uncaught exception main is
abandoned, a minimal output record with an error field is written, and the
process exits with status 0 — `exit(0)  # Exit successfully to not break
workflow`.  The pair is (last output written, process exit status). -/
def top_level_run (result : Except String RunOutput) : RunOutput × Nat :=
  match result with
  | Except.ok out => (out, 0)
  | Except.error e => (⟨[], StatsVal.err e⟩, 0)

/-- C5 counterexample: when an uncaught exception reaches the top level the
run writes the minimal error-annotated output, but the process exit status is
0, i.e. SUCCESS — it does not signal failure to the external scheduler, so the
claim is false at this input. -/
theorem top_level_exit_zero_cex :
    (top_level_run (Except.error "boom")).2 = 0 ∧
    (top_level_run (Except.error "boom")).1.stats = StatsVal.err "boom" := by
  exact ⟨rfl, rfl⟩

/-- C5 amended: an uncaught top-level exception still produces a minimal valid
output record carrying the error message, and the process then exits with
status 0 (deliberately signaling success, "to not break workflow"), not with a
failure status. -/
theorem top_level_writes_error_exits_zero (e : String) :
    top_level_run (Except.error e) = (⟨[], StatsVal.err e⟩, 0) := by
  rfl


/-- History merge (source lines 314-332, articles list only; the lastUpdated
timestamp and the derived totalArticles count are not modelled).  The set of
existing titles is computed ONCE from the incoming history (it is not extended
while the loop runs, exactly as in the source); each new article whose title
is not in that set is inserted at position 0 (so inserted articles end up in
reverse batch order at the front); finally the list is truncated to the 500
most recent. -/
def update_history_articles (history new_articles : List ProcessedArticle) :
    List ProcessedArticle :=
  (new_articles.foldl
    (fun acc article =>
      if (history.map (fun a => a.title)).contains article.title then acc
      else article :: acc)
    history).take 500

theorem foldl_insert_eq (p : ProcessedArticle → Bool) :
    ∀ (l acc : List ProcessedArticle),
      l.foldl (fun acc a => if p a then acc else a :: acc) acc =
        (l.filter (fun a => !(p a))).reverse ++ acc := by
  intro l
  induction l with
  | nil => intro acc; simp
  | cons a l ih =>
    intro acc
    by_cases h : p a <;> simp [List.filter_cons, h, ih]

theorem update_history_eq (history new_articles : List ProcessedArticle) :
    update_history_articles history new_articles =
      ((new_articles.filter
          (fun a => !((history.map (fun b => b.title)).contains a.title))).reverse
        ++ history).take 500 := by
  unfold update_history_articles
  rw [foldl_insert_eq (fun a => (history.map (fun b => b.title)).contains a.title)]

theorem contains_iff_mem_str (l : List String) (x : String) :
    l.contains x = true ↔ x ∈ l :=
  List.elem_iff

theorem update_history_cap (H B : List ProcessedArticle) :
    (update_history_articles H B).length ≤ 500 := by
  rw [update_history_eq]
  exact List.length_take_le _ _

theorem update_history_nodup (H B : List ProcessedArticle)
    (hH : (H.map (fun a => a.title)).Nodup) (hB : (B.map (fun a => a.title)).Nodup) :
    ((update_history_articles H B).map (fun a => a.title)).Nodup := by
  rw [update_history_eq, List.map_take]
  apply List.Nodup.sublist (List.take_sublist _ _)
  rw [List.map_append, List.map_reverse, List.nodup_append]
  refine ⟨List.nodup_reverse.mpr
    (List.Nodup.sublist (List.Sublist.map _ (List.filter_sublist _)) hB), hH, ?_⟩
  intro x hx
  rw [List.mem_reverse, List.mem_map] at hx
  obtain ⟨a, haf, hax⟩ := hx
  have hmf := List.mem_filter.mp haf
  intro hmem
  have hc : (H.map (fun b => b.title)).contains a.title = true :=
    (contains_iff_mem_str _ _).mpr (hax ▸ hmem)
  rw [hc] at hmf
  exact absurd hmf.2 (by decide)

theorem foldl_history_cap :
    ∀ (batches : List (List ProcessedArticle)) (H : List ProcessedArticle),
      H.length ≤ 500 → (batches.foldl update_history_articles H).length ≤ 500 := by
  intro batches
  induction batches with
  | nil => intro H h; simpa using h
  | cons B bs ih => intro H h; exact ih _ (update_history_cap H B)

theorem foldl_history_nodup :
    ∀ (batches : List (List ProcessedArticle)) (H : List ProcessedArticle),
      (H.map (fun a => a.title)).Nodup →
      (∀ B ∈ batches, (B.map (fun a => a.title)).Nodup) →
      ((batches.foldl update_history_articles H).map (fun a => a.title)).Nodup := by
  intro batches
  induction batches with
  | nil => intro H h _; simpa using h
  | cons B bs ih =>
    intro H h hall
    exact ih _ (update_history_nodup H B h (hall B (by simp)))
      (fun B2 hB2 => hall B2 (by simp [hB2]))

/-- C3 amended: after any sequence of merges starting from the empty store the
History Store never exceeds the cap of 500; and PROVIDED each merged batch
itself contains no two entries sharing a title, the store never contains two
entries sharing a title.  (The original claim fails without that proviso: the
dedup set is computed once per merge from the store alone, so a batch that
contains the same title twice inserts both copies.) -/
theorem history_fold_nodup_cap (batches : List (List ProcessedArticle)) :
    (batches.foldl update_history_articles []).length ≤ 500 ∧
    ((∀ B ∈ batches, (B.map (fun a => a.title)).Nodup) →
      ((batches.foldl update_history_articles []).map (fun a => a.title)).Nodup) :=
  ⟨foldl_history_cap batches [] (by simp),
   fun h => foldl_history_nodup batches [] (by simp) h⟩

/-- Sample history entry. -/
def paX : ProcessedArticle := ⟨"x", "lx", "px", none⟩

/-- Second sample history entry with a distinct title. -/
def paY : ProcessedArticle := ⟨"y", "ly", "py", none⟩

/-- Witness for the amended C3 theorem on a concrete two-merge sequence with
duplicate-free batches (the second batch repeats a title of the first, which
the merge rule correctly skips). -/
theorem history_fold_nodup_cap_witness :
    (([[paX], [paX, paY]].foldl update_history_articles []).length ≤ 500 ∧
      (([[paX], [paX, paY]].foldl update_history_articles []).map
        (fun a => a.title)).Nodup) :=
  ⟨(history_fold_nodup_cap [[paX], [paX, paY]]).1,
   (history_fold_nodup_cap [[paX], [paX, paY]]).2 (by decide)⟩

/-- C3 counterexample: a single merge of a batch containing the same title
twice into the empty store leaves TWO entries with that title in the History
Store, violating the claimed no-duplicate invariant. -/
theorem history_merge_duplicate_cex :
    ¬ ((update_history_articles [] [paX, paX]).map (fun a => a.title)).Nodup := by
  decide

/-- C7 amended: merging the same batch twice equals merging it once PROVIDED
no truncation occurs (|store| + |batch| ≤ 500).  At the cap, truncation can
evict a stored entry whose title occurs in the batch, and the re-merge then
reinserts it at the front, changing the sequence. -/
theorem update_history_idempotent (H B : List ProcessedArticle)
    (hlen : H.length + B.length ≤ 500) :
    update_history_articles (update_history_articles H B) B =
      update_history_articles H B := by
  have hF : (B.filter
      (fun a => !((H.map (fun b => b.title)).contains a.title))).length ≤ B.length :=
    List.length_filter_le _ _
  set F := B.filter (fun a => !((H.map (fun b => b.title)).contains a.title)) with hFdef
  have hMlen : (F.reverse ++ H).length ≤ 500 := by
    rw [List.length_append, List.length_reverse]
    omega
  have hM : update_history_articles H B = F.reverse ++ H := by
    rw [update_history_eq, ← hFdef]
    exact List.take_of_length_le hMlen
  rw [hM, update_history_eq]
  have hall : ∀ a ∈ B,
      ((F.reverse ++ H).map (fun b => b.title)).contains a.title = true := by
    intro a ha
    rw [contains_iff_mem_str, List.map_append, List.mem_append]
    by_cases hc : (H.map (fun b => b.title)).contains a.title
    · exact Or.inr ((contains_iff_mem_str _ _).mp hc)
    · refine Or.inl ?_
      rw [List.map_reverse, List.mem_reverse, List.mem_map]
      refine ⟨a, hFdef ▸ List.mem_filter.mpr ⟨ha, ?_⟩, rfl⟩
      rw [Bool.not_eq_true] at hc
      rw [hc]
      rfl
  have hnil : B.filter
      (fun a => !(((F.reverse ++ H).map (fun b => b.title)).contains a.title)) = [] := by
    rw [List.filter_eq_nil_iff]
    intro a ha
    rw [hall a ha]
    decide
  rw [hnil]
  simpa using List.take_of_length_le hMlen

/-- Witness for the amended C7 theorem on a small store and batch. -/
theorem update_history_idempotent_witness :
    update_history_articles (update_history_articles [] [paX]) [paX] =
      update_history_articles [] [paX] :=
  update_history_idempotent [] [paX] (by decide)

/-- History entry whose title is the decimal print of i. -/
def histArt (i : Nat) : ProcessedArticle := ⟨toString i, "", "", none⟩

/-- A store filled exactly to the 500-entry cap with distinct titles. -/
def bigHistory : List ProcessedArticle := (List.range 500).map histArt

/-- A batch with one fresh title and one title equal to the OLDEST stored
entry (the one the cap truncation will evict). -/
def capBatch : List ProcessedArticle := [histArt 600, histArt 499]

set_option maxRecDepth 100000 in
set_option maxHeartbeats 1000000 in
/-- C7 counterexample: with the store at its cap, the first merge inserts the
fresh entry and truncates away the stored entry titled "499"; re-merging the
same batch then reinserts "499" at the front, so merging twice differs from
merging once — idempotence fails as stated. -/
theorem history_merge_not_idempotent_cex :
    update_history_articles (update_history_articles bigHistory capBatch) capBatch ≠
      update_history_articles bigHistory capBatch := by
  decide

/-- File-system state: contents by file name; `none` means opening the file
raises (missing file / IO error).  Writes are modelled as always succeeding;
in the source any write failure is caught by the surrounding bare except. -/
def FS : Type := String → Option String

/-- Overwrite one file's content. -/
def FS.write (fs : FS) (name content : String) : FS :=
  fun n => if n = name then some content else fs n

/-- Source line 27: a line toggles the skip flag when it contains any of the
three conflict markers (and marker lines are themselves always dropped). -/
def isMarkerLine (line : String) : Bool :=
  containsSub line "<<<<<<< " || containsSub line "=======" || containsSub line ">>>>>>> "

/-- Source lines 22-30: walk the lines with a skip flag that flips at every
marker line; keep exactly the non-marker lines seen while the flag is off
(this retains the right-hand side of each conflict region). -/
def stripConflictLines (lines : List String) : List String :=
  (lines.foldl
    (fun (acc : List String × Bool) line =>
      if isMarkerLine line then (acc.1, !acc.2)
      else if acc.2 then acc
      else (line :: acc.1, acc.2))
    ([], false)).1.reverse

/-- Source lines 22-34: split on newline, strip conflict regions, rejoin. -/
def cleanedText (content : String) : String :=
  joinNl (stripConflictLines (pySplitOn content "\n"))

/-- Return value of clean_json_file: Python None, or the fresh-start dict
`articles: []` returned when a history file cannot be repaired (source lines
41-44).  Its callers ignore this value entirely. -/
inductive CleanResult
  | noneVal
  | emptyHistory
deriving DecidableEq

/-- Source lines 13-47 (clean_json_file).  `parse` is `json.loads` for the
abstract document type J, yielding `none` when loading raises.  The file is
REWRITTEN only when it exists, contains a '<<<<<<< ' marker, and the
conflict-stripped text parses as JSON; every other path leaves the file
system untouched (any internal exception is swallowed by the bare excepts). -/
def clean_json_file {J : Type} (parse : String → Option J) (fs : FS) (filename : String) :
    FS × CleanResult :=
  match fs filename with
  | none => (fs, CleanResult.noneVal)
  | some content =>
    match containsSub content "<<<<<<< " with
    | false => (fs, CleanResult.noneVal)
    | true =>
      match parse (cleanedText content) with
      | some _ => (FS.write fs filename (cleanedText content), CleanResult.noneVal)
      | none =>
        match containsSub filename "history" with
        | true => (fs, CleanResult.emptyHistory)
        | false => (fs, CleanResult.noneVal)

/-- Source lines 49-61 (load_json_safely): try to open and parse; on any
failure run clean_json_file (ignoring its return value), retry the open and
parse, and on failure again return the caller-supplied default.  main calls
this for the history file with the empty store `articles: []` as default. -/
def load_json_safely {J : Type} (parse : String → Option J) (fs : FS) (filename : String)
    (dflt : J) : FS × J :=
  match (fs filename).bind parse with
  | some j => (fs, j)
  | none =>
    match ((clean_json_file parse fs filename).1 filename).bind parse with
    | some j => ((clean_json_file parse fs filename).1, j)
    | none => ((clean_json_file parse fs filename).1, dflt)

/-- C10: the repair routine touches no file other than its target, and the
target is either left with its original content or overwritten with the
conflict-stripped text — and in the latter case only when that text parses as
valid JSON.  Repair never replaces a file with invalid JSON. -/
theorem clean_json_preserves {J : Type} (parse : String → Option J) (fs : FS)
    (filename : String) :
    (∀ n, n ≠ filename → (clean_json_file parse fs filename).1 n = fs n) ∧
    ((clean_json_file parse fs filename).1 filename = fs filename ∨
      ∃ c j, fs filename = some c ∧ containsSub c "<<<<<<< " = true ∧
        parse (cleanedText c) = some j ∧
        (clean_json_file parse fs filename).1 filename = some (cleanedText c)) := by
  constructor
  · intro n hn
    cases hread : fs filename with
    | none => simp [clean_json_file, hread]
    | some c =>
      cases hm : containsSub c "<<<<<<< " with
      | false => simp [clean_json_file, hread, hm]
      | true =>
        cases hp : parse (cleanedText c) with
        | none =>
          cases hh : containsSub filename "history" with
          | false => simp [clean_json_file, hread, hm, hp, hh]
          | true => simp [clean_json_file, hread, hm, hp, hh]
        | some j => simp [clean_json_file, hread, hm, hp, FS.write, hn]
  · cases hread : fs filename with
    | none => exact Or.inl (by simp [clean_json_file, hread])
    | some c =>
      cases hm : containsSub c "<<<<<<< " with
      | false => exact Or.inl (by simp [clean_json_file, hread, hm])
      | true =>
        cases hp : parse (cleanedText c) with
        | none =>
          refine Or.inl ?_
          cases hh : containsSub filename "history" with
          | false => simp [clean_json_file, hread, hm, hp, hh]
          | true => simp [clean_json_file, hread, hm, hp, hh]
        | some j =>
          exact Or.inr ⟨c, j, rfl, hm, hp,
            by simp [clean_json_file, hread, hm, hp, FS.write]⟩

/-- Witness for C10 at a concrete one-file system whose content has no
conflict marker (so the repair leaves everything unchanged). -/
theorem clean_json_preserves_witness :
    ((clean_json_file (fun _ => (none : Option Unit))
        (fun n => if n = "news-history.json" then some "bad json" else none)
        "news-history.json").1 "other.json" =
      (fun n => if n = "news-history.json" then some "bad json" else none : FS) "other.json") ∧
    ((clean_json_file (fun _ => (none : Option Unit))
        (fun n => if n = "news-history.json" then some "bad json" else none)
        "news-history.json").1 "news-history.json" =
      (fun n => if n = "news-history.json" then some "bad json" else none : FS)
        "news-history.json" ∨
      ∃ c j, (fun n => if n = "news-history.json" then some "bad json" else none : FS)
          "news-history.json" = some c ∧
        containsSub c "<<<<<<< " = true ∧
        (fun _ => (none : Option Unit)) (cleanedText c) = some j ∧
        (clean_json_file (fun _ => (none : Option Unit))
            (fun n => if n = "news-history.json" then some "bad json" else none)
            "news-history.json").1 "news-history.json" = some (cleanedText c)) :=
  ⟨(clean_json_preserves (fun _ => (none : Option Unit))
      (fun n => if n = "news-history.json" then some "bad json" else none)
      "news-history.json").1 "other.json" (by decide),
   (clean_json_preserves (fun _ => (none : Option Unit))
      (fun n => if n = "news-history.json" then some "bad json" else none)
      "news-history.json").2⟩

/-- C8: loading persisted state never fails the run — on a missing file it
returns the caller's default (the empty store at the history call site); on
content that does not parse but contains a conflict marker it strips the
marker-delimited regions and, when the cleaned text re-validates, returns
that repaired document; and when no repair applies or the cleaned text still
does not parse it returns the default rather than raising. -/
theorem load_json_safely_total {J : Type} (parse : String → Option J) (fs : FS)
    (filename : String) (dflt : J) :
    (fs filename = none → load_json_safely parse fs filename dflt = (fs, dflt)) ∧
    (∀ c, fs filename = some c → parse c = none →
      containsSub c "<<<<<<< " = true →
      ∀ j, parse (cleanedText c) = some j →
        load_json_safely parse fs filename dflt =
          (FS.write fs filename (cleanedText c), j)) ∧
    (∀ c, fs filename = some c → parse c = none →
      (containsSub c "<<<<<<< " = false ∨ parse (cleanedText c) = none) →
      (load_json_safely parse fs filename dflt).2 = dflt) := by
  refine ⟨?_, ?_, ?_⟩
  · intro hread
    simp [load_json_safely, clean_json_file, hread]
  · intro c hread hparse hm j hclean
    have hw : FS.write fs filename (cleanedText c) filename = some (cleanedText c) := by
      simp [FS.write]
    simp [load_json_safely, clean_json_file, hread, hparse, hm, hclean, hw]
  · intro c hread hparse hrest
    rcases hrest with hm | hclean
    · simp [load_json_safely, clean_json_file, hread, hparse, hm]
    · cases hm : containsSub c "<<<<<<< " with
      | false => simp [load_json_safely, clean_json_file, hread, hparse, hm]
      | true =>
        cases hh : containsSub filename "history" with
        | false => simp [load_json_safely, clean_json_file, hread, hparse, hm, hclean, hh]
        | true => simp [load_json_safely, clean_json_file, hread, hparse, hm, hclean, hh]

/-- Witness for C8: a missing history file loads as the supplied empty-store
default. -/
theorem load_json_safely_total_witness :
    load_json_safely (fun s => if s = "valid" then some () else none)
      (fun _ => none) "news-history.json" () = ((fun _ => none : FS), ()) :=
  (load_json_safely_total (fun s => if s = "valid" then some () else none)
    (fun _ => none) "news-history.json" ()).1 rfl
